import Mathlib

/-!
Shallow embedding of the grid-based ecosystem simulator
(`world.py`, `time_1.py`, `animals.py`, `plants.py`, `meta.py`).

Modelling conventions:
* Entity objects are identified by numeric ids.  Python object state lives in
  `World.store` (an association list `id ↦ Entity`); it is never erased there,
  mirroring the fact that a Python object keeps existing after it has been
  removed from `World.entities` / the grid.
* Group objects (`self.group`, a shared mutable Python list) live in
  `World.groups` (`groupId ↦ member ids`); an animal's `groupId` field models
  its `group` attribute (a reference to the shared list object).
* Randomness: the Python module-level `random` source is modelled as an
  oracle `RNG` holding the future results of `random.random()` (`floats`),
  `random.randint` (`ints`, assumed in the requested range) and
  `random.choice` (`choices`, an index into the list argument).  Every
  consumption pops the head, in exactly the order the source draws.
* `matrix[x][y]` indexing in the source is always guarded by a bounds check
  (`is_valid_position` / explicit range tests), so the total `List.set`/`getD`
  model below agrees with Python on every executed index.
-/

inductive Species where
  | malheureux | pauvre | lumiere | obscurite | demi
deriving DecidableEq, BEq, Repr

inductive Phase where
  | morning | day | evening | night
deriving DecidableEq, BEq, Repr

def Species.isAnimal : Species → Bool
  | .malheureux | .pauvre => true
  | _ => false

/-- One entity's object state: the union of the `Animal` and `Plant`
attributes from `animals.py` / `plants.py` (unused fields are inert for the
other kind).  `isPredatory` models presence of the `_is_predatory` attribute
(Malheureux), `isAggressive` presence of `_is_aggressive` (Pauvre / Plant):
the per-instance method rebinding done by `make_predatory_merge` /
`make_aggressive_eat` / `make_aggressive_spread` is modelled as dispatch on
these one-way flags. -/
structure Entity where
  species : Species
  position : Int × Int
  speed : Nat
  food : Nat
  isActive : Bool
  isHungry : Bool
  groupId : Nat
  isPredatory : Bool
  isAggressive : Bool
  failedGrowthTicks : Nat
deriving DecidableEq, Repr

instance : Inhabited Entity :=
  ⟨⟨.lumiere, (0, 0), 0, 0, true, false, 0, false, false, 0⟩⟩

/-- `time_1.py` `Time`: `current_time = cycle[tick_counter % 4]` throughout,
so only the counter is stored. -/
structure TimeState where
  tickCounter : Nat
deriving DecidableEq, Repr

def cyclePhase (n : Nat) : Phase :=
  match n % 4 with
  | 0 => .morning
  | 1 => .day
  | 2 => .evening
  | _ => .night

def get_time (t : TimeState) : Phase := cyclePhase t.tickCounter

def change_time (t : TimeState) : TimeState := ⟨t.tickCounter + 1⟩

/-- Exact rational values (positive denominators), without normalisation:
all operations are plain integer arithmetic, so they evaluate inside the
kernel.  Used for the `random.random()` draws and the probability constants
of the rule tables. -/
structure Frac where
  num : Int
  den : Int
deriving DecidableEq, Repr

/-- `a < b` on fractions with positive denominators. -/
def Frac.lt (a b : Frac) : Bool := a.num * b.den < b.num * a.den

def Frac.mul (a b : Frac) : Frac := ⟨a.num * b.num, a.den * b.den⟩

/-- Oracle for the shared `random` source. -/
structure RNG where
  floats : List Frac
  ints : List Int
  choices : List Nat
deriving Repr

def popFloat (r : RNG) : Frac × RNG :=
  (r.floats.headD ⟨0, 1⟩, { r with floats := r.floats.tail })

def popInt (r : RNG) : Int × RNG :=
  (r.ints.headD 0, { r with ints := r.ints.tail })

def popChoice (r : RNG) : Nat × RNG :=
  (r.choices.headD 0, { r with choices := r.choices.tail })

structure World where
  width : Nat
  height : Nat
  matrix : List (List (Option Nat))
  entities : List Nat
  store : List (Nat × Entity)
  groups : List (Nat × List Nat)
  nextId : Nat
  nextGroupId : Nat
  time : TimeState
deriving DecidableEq, Repr

def emptyWorld (width height : Nat) : World :=
  { width := width, height := height
    matrix := List.replicate height (List.replicate width none)
    entities := [], store := [], groups := []
    nextId := 0, nextGroupId := 0, time := ⟨0⟩ }

/-- First-match association-list lookup (the id → object tables). -/
def alistGet {κ β : Type} [DecidableEq κ] : List (κ × β) → κ → Option β
  | [], _ => none
  | (k, v) :: t, i => if k = i then some v else alistGet t i

/-- Association-list update at a key (attribute assignment on the object). -/
def alistUpd {κ β : Type} [DecidableEq κ] : List (κ × β) → κ → (β → β) → List (κ × β)
  | [], _, _ => []
  | (k, v) :: t, i, f =>
      if k = i then (k, f v) :: alistUpd t i f else (k, v) :: alistUpd t i f

def getEnt (w : World) (i : Nat) : Entity := (alistGet w.store i).getD default

def updEnt (w : World) (i : Nat) (f : Entity → Entity) : World :=
  { w with store := alistUpd w.store i f }

def getGroup (w : World) (g : Nat) : List Nat := (alistGet w.groups g).getD []

def setGroup (w : World) (g : Nat) (ms : List Nat) : World :=
  { w with groups := alistUpd w.groups g fun _ => ms }

/-- `len(self.group)` for the animal with id `i`. -/
def groupSizeOf (w : World) (i : Nat) : Nat := (getGroup w (getEnt w i).groupId).length

def matrixGet (m : List (List (Option Nat))) (p : Int × Int) : Option Nat :=
  if 0 ≤ p.1 ∧ 0 ≤ p.2 then (m.getD p.1.toNat []).getD p.2.toNat none else none

def matrixSet (m : List (List (Option Nat))) (p : Int × Int) (v : Option Nat) :
    List (List (Option Nat)) :=
  if 0 ≤ p.1 ∧ 0 ≤ p.2 then m.set p.1.toNat ((m.getD p.1.toNat []).set p.2.toNat v) else m

/-- `World.is_valid_position`: `0 <= x < self.height and 0 <= y < self.width`. -/
def is_valid_position (w : World) (x y : Int) : Bool :=
  decide (0 ≤ x ∧ x < (w.height : Int) ∧ 0 ≤ y ∧ y < (w.width : Int))

/-- `World.get_nearby_objects`: row-major scan of the `(2r+1)²` square, the
centre cell excluded, collecting non-empty cells. -/
def get_nearby_objects (w : World) (pos : Int × Int) (radius : Nat) : List Nat :=
  let deltas := (List.range (2 * radius + 1)).map fun k => (k : Int) - radius
  deltas.foldl (fun acc dx =>
    deltas.foldl (fun acc dy =>
      if 0 ≤ pos.1 + dx ∧ pos.1 + dx < (w.height : Int) ∧
         0 ≤ pos.2 + dy ∧ pos.2 + dy < (w.width : Int) then
        match matrixGet w.matrix (pos.1 + dx, pos.2 + dy) with
        | some o => if dx ≠ 0 ∨ dy ≠ 0 then acc ++ [o] else acc
        | none => acc
      else acc) acc) []

/-- `World.get_free_adjacent_cells`: the in-bounds empty Moore neighbours. -/
def get_free_adjacent_cells (w : World) (pos : Int × Int) : List (Int × Int) :=
  ([-1, 0, 1] : List Int).foldl (fun acc dx =>
    ([-1, 0, 1] : List Int).foldl (fun acc dy =>
      if dx = 0 ∧ dy = 0 then acc
      else
        let nx := pos.1 + dx
        let ny := pos.2 + dy
        if is_valid_position w nx ny ∧ matrixGet w.matrix (nx, ny) = none then
          acc ++ [(nx, ny)]
        else acc) acc) []

/-- `World.add_entity`: binds the cell at the entity's position and appends it
to the entity list — with no bounds or occupancy check and no return value. -/
def add_entity (w : World) (i : Nat) : World :=
  { w with matrix := matrixSet w.matrix (getEnt w i).position (some i)
           entities := w.entities ++ [i] }

/-- `World.delete_unit`. -/
def delete_unit (w : World) (i : Nat) : World :=
  if i ∈ w.entities then
    { w with matrix := matrixSet w.matrix (getEnt w i).position none
             entities := w.entities.erase i }
  else w

/-- `World.remove_group`: for each animal in the list, if still live, remove
it from the entity list and clear its cell. -/
def remove_group (w : World) (members : List Nat) : World :=
  members.foldl (fun w a =>
    if a ∈ w.entities then
      { w with entities := w.entities.erase a
               matrix := matrixSet w.matrix (getEnt w a).position none }
    else w) w

/-- `World.move_entity`: checked vacate-old / occupy-new. -/
def move_entity (w : World) (i : Nat) (newPos : Int × Int) : Bool × World :=
  let oldPos := (getEnt w i).position
  if is_valid_position w newPos.1 newPos.2 ∧ matrixGet w.matrix newPos = none then
    let w1 := { w with matrix := matrixSet w.matrix oldPos none }
    let w2 := updEnt w1 i fun e => { e with position := newPos }
    (true, { w2 with matrix := matrixSet w2.matrix newPos (some i) })
  else (false, w)

/-- `World.relocate_unit` just forwards to `move_entity` (plus logging). -/
def relocate_unit (w : World) (i : Nat) (newPos : Int × Int) : Bool × World :=
  move_entity w i newPos

/-! ## Species rule tables (`animals.py` class attributes, `plants.py`) -/

/-- `active_times` class attribute (the metaclass default
`["morning","day","evening"]` is never reached: both animal classes set it). -/
def activeTimes : Species → List Phase
  | .malheureux => [.morning, .evening]
  | .pauvre => [.morning, .day, .evening]
  | _ => []

structure EatRule where
  radius : Nat
  targetClasses : List Species
  probability : Frac
  hungryMultiplier : Frac
  foodValues : List (Species × Nat)
deriving DecidableEq, Repr

def malheureuxTargets : List Species := [.demi, .obscurite, .pauvre]
def malheureuxFoodValues : List (Species × Nat) := [(.demi, 30), (.obscurite, 40), (.pauvre, 60)]

/-- `eat_behavior[day_time]` for the phase keys present in the class tables
(`target_classes` as filled in by `__init__` once all classes are registered,
which holds for every entity the `World` constructor or the simulation
creates). -/
def eatBehavior : Species → Phase → Option EatRule
  | .malheureux, .morning => some ⟨2, malheureuxTargets, ⟨1, 4⟩, ⟨2, 1⟩, malheureuxFoodValues⟩
  | .malheureux, .evening => some ⟨2, malheureuxTargets, ⟨1, 4⟩, ⟨3, 2⟩, malheureuxFoodValues⟩
  | .pauvre, .morning => some ⟨2, [.lumiere], ⟨33, 100⟩, ⟨2, 1⟩, [(.lumiere, 30)]⟩
  | .pauvre, .evening => some ⟨2, [.lumiere], ⟨11, 100⟩, ⟨1, 1⟩, [(.lumiere, 30)]⟩
  | _, _ => none

/-- `eat_behavior["default"]`. -/
def eatDefault : Species → EatRule
  | .malheureux => ⟨2, malheureuxTargets, ⟨1, 10⟩, ⟨1, 1⟩, malheureuxFoodValues⟩
  | .pauvre => ⟨2, [.lumiere], ⟨16, 100⟩, ⟨1, 1⟩, [(.lumiere, 30)]⟩
  | _ => ⟨2, [], ⟨1, 4⟩, ⟨2, 1⟩, []⟩

/-- `eat_behavior.get(day_time, {})` followed by the `if not behavior:`
fallback to the `"default"` entry. -/
def eatRuleFor (sp : Species) (ph : Phase) : EatRule :=
  match eatBehavior sp ph with
  | some r => r
  | none => eatDefault sp

/-- `behavior.get("food_values", {}).get(target.__class__.__name__, 30)`. -/
def foodValueOf (rule : EatRule) (sp : Species) : Nat := (alistGet rule.foodValues sp).getD 30

/-- Subclass `__init__` speed overrides (`Malheureux` 100, `Pauvre` 50). -/
def initSpeed : Species → Nat
  | .malheureux => 100
  | _ => 50

/-- `reproduction_probability`. -/
def reproduction_probability (w : World) (i : Nat) : Frac :=
  match (getEnt w i).species with
  | .malheureux => if groupSizeOf w i > 3 then ⟨1, 5⟩ else ⟨1, 20⟩
  | .pauvre => if groupSizeOf w i > 2 then ⟨3, 10⟩ else ⟨1, 10⟩
  | _ => ⟨0, 1⟩

/-- `growth_time` set by the plant `__init__`s. -/
def growthTime : Species → List Phase
  | .lumiere => [.day]
  | .demi => [.morning, .evening]
  | .obscurite => [.night]
  | _ => []

/-- `self.competitors` set by the plant `__init__`s (all classes registered). -/
def competitorsOf : Species → List Species
  | .lumiere => [.obscurite, .demi]
  | .demi => [.obscurite, .lumiere]
  | .obscurite => [.lumiere, .demi]
  | _ => []

def default_spread_chance : Species → Frac
  | .lumiere => ⟨1, 4⟩
  | .demi => ⟨3, 10⟩
  | .obscurite => ⟨7, 20⟩
  | _ => ⟨1, 2⟩

def aggressive_spread_chance : Species → Frac
  | .lumiere => ⟨2, 5⟩
  | .demi => ⟨1, 2⟩
  | .obscurite => ⟨3, 5⟩
  | _ => ⟨1, 4⟩

/-- A Python value that can reach `_can_replace`'s parameter: at both call
sites (`spread` in `meta.py`, `aggressive_spread` in `plants.py`) the argument
is the chosen target *position* (a coordinate tuple), although the
`isinstance` test inside is written for an entity. -/
inductive PyVal where
  | pos (p : Int × Int)
  | ent (sp : Species)
deriving DecidableEq, Repr

/-- `Plant._can_replace`:
`isinstance(other, tuple(self.competitors)) if other else False`.
A coordinate tuple is not an instance of any competitor class. -/
def can_replace (sp : Species) (other : Option PyVal) : Bool :=
  match other with
  | none => false
  | some (.ent s) => (competitorsOf sp).contains s
  | some (.pos _) => false

/-- `target is None` applied to the value of `get_free_adjacent_cells`
(a list object, never `None`). -/
def pyIsNone (_l : List (Int × Int)) : Bool := false

/-! ## Entity creation (`cls(position)` constructors) -/

/-- Running `cls([x, y])`: allocates the object, and for animals registers a
fresh singleton group (`self.group = [self]`). -/
def createEntity (w : World) (sp : Species) (pos : Int × Int) : World × Nat :=
  let i := w.nextId
  if sp.isAnimal then
    let g := w.nextGroupId
    let e : Entity :=
      { species := sp, position := pos, speed := initSpeed sp, food := 100,
        isActive := true, isHungry := false, groupId := g,
        isPredatory := false, isAggressive := false, failedGrowthTicks := 0 }
    ({ w with store := w.store ++ [(i, e)], groups := w.groups ++ [(g, [i])],
              nextId := i + 1, nextGroupId := g + 1 }, i)
  else
    let e : Entity :=
      { species := sp, position := pos, speed := 0, food := 0,
        isActive := true, isHungry := false, groupId := 0,
        isPredatory := false, isAggressive := false, failedGrowthTicks := 0 }
    ({ w with store := w.store ++ [(i, e)], nextId := i + 1 }, i)

/-! ## Animal behavior (`animals.py`, injected methods from `meta.py`) -/

/-- `change_active_status` (injected): `is_active := day_time in cls.active_times`
(the guarded assignment plus logging is observably plain assignment). -/
def change_active_status (w : World) (i : Nat) (ph : Phase) : World :=
  updEnt w i fun e => { e with isActive := (activeTimes e.species).contains ph }

/-- `Animal.change_hungry_status`: `is_hungry := food < 30`. -/
def change_hungry_status (w : World) (i : Nat) : World :=
  updEnt w i fun e => { e with isHungry := e.food < 30 }

/-- `Animal.change_speed_status`: `speed = 50 if is_hungry else 100`. -/
def change_speed_status (w : World) (i : Nat) : World :=
  updEnt w i fun e => { e with speed := if e.isHungry then 50 else 100 }

/-- `Animal.decrease_food`: `food = max(0, food - 1)`. -/
def decrease_food (w : World) (i : Nat) : World :=
  updEnt w i fun e => { e with food := e.food - 1 }

/-- The merge body shared by `GroupBehaviorMixin.try_merge_groups` and
`predatory_merge`, for the acting animal `i` and the matched neighbour `c`:

    self.group.extend(entity.group)
    for member in entity.group: member.group = self.group
    world.remove_group(entity.group)

After the re-pointing loop, the attribute `entity.group` refers to
`self.group` (the entity is a member of its own group), whose value is now
the extended member list — so `remove_group` receives the merged list. -/
def mergeGroups (w : World) (i c : Nat) : World :=
  let gi := (getEnt w i).groupId
  let membersC := getGroup w (getEnt w c).groupId
  let w := setGroup w gi (getGroup w gi ++ membersC)
  let w := membersC.foldl (fun w m => updEnt w m fun e => { e with groupId := gi }) w
  remove_group w (getGroup w gi)

/-- `GroupBehaviorMixin.try_merge_groups`: scan the radius-2 neighbours; for
each neighbour of the same class other than `self`, draw `random.random()`;
on a draw below 0.25 perform the merge and stop. -/
def merge_loop (w : World) (i : Nat) (cands : List Nat) (rng : RNG) : World × RNG :=
  match cands with
  | [] => (w, rng)
  | c :: rest =>
    if (getEnt w c).species = (getEnt w i).species ∧ c ≠ i then
      let (r, rng) := popFloat rng
      if Frac.lt r ⟨1, 4⟩ then (mergeGroups w i c, rng)
      else merge_loop w i rest rng
    else merge_loop w i rest rng

def try_merge_groups (w : World) (i : Nat) (rng : RNG) : World × RNG :=
  merge_loop w i (get_nearby_objects w (getEnt w i).position 2) rng

/-- `predatory_merge` (installed by `Malheureux.make_predatory_merge`): the
first same-class neighbour other than `self` whose group has fewer than 3
members is merged, with no random draw; larger-group neighbours are skipped. -/
def predatory_loop (w : World) (i : Nat) (cands : List Nat) : World :=
  match cands with
  | [] => w
  | c :: rest =>
    if (getEnt w c).species = (getEnt w i).species ∧ c ≠ i then
      if groupSizeOf w c < 3 then mergeGroups w i c
      else predatory_loop w i rest
    else predatory_loop w i rest

def predatory_merge (w : World) (i : Nat) : World :=
  predatory_loop w i (get_nearby_objects w (getEnt w i).position 2)

/-- The `try_merge_groups` attribute of animal `i`: the mixin method unless
`make_predatory_merge` has rebound it on this instance. -/
def merge_dispatch (w : World) (i : Nat) (rng : RNG) : World × RNG :=
  if (getEnt w i).species = .malheureux ∧ (getEnt w i).isPredatory then
    (predatory_merge w i, rng)
  else try_merge_groups w i rng

/-- `check_self_modification` per class: `Malheureux` turns predatory when
its group exceeds 5 members, `Pauvre` turns aggressive when starving; the
`hasattr` test makes each a one-way transition.  The base `Animal` method and
the plant variant for plant species are handled by `plant_check` below. -/
def check_self_modification (w : World) (i : Nat) : World :=
  match (getEnt w i).species with
  | .malheureux =>
      if groupSizeOf w i > 5 ∧ ¬(getEnt w i).isPredatory then
        updEnt w i fun e => { e with isPredatory := true }
      else w
  | .pauvre =>
      if (getEnt w i).isHungry ∧ (getEnt w i).food < 10 ∧ ¬(getEnt w i).isAggressive then
        updEnt w i fun e => { e with isAggressive := true }
      else w
  | _ => w

/-- The retry loop drawing `randint(-1,1)` twice until a non-zero delta; the
source loops forever if the stream never yields one, the model answers
`(1, 1)` once the oracle is exhausted. -/
def drawDeltaAux : List Int → (Int × Int) × List Int
  | dx :: dy :: rest => if dx = 0 ∧ dy = 0 then drawDeltaAux rest else ((dx, dy), rest)
  | _ => ((1, 1), [])

def drawDelta (rng : RNG) : (Int × Int) × RNG :=
  let (d, rest) := drawDeltaAux rng.ints
  (d, { rng with ints := rest })

/-- `move` (injected): gate on activity and a `randint(1,100) <= speed` draw,
pick a non-zero delta, and attempt the relocation; food drops by 1 on
success. -/
def move (w : World) (i : Nat) (rng : RNG) : World × RNG :=
  if ¬(getEnt w i).isActive then (w, rng)
  else
    let (k, rng) := popInt rng
    if k > ((getEnt w i).speed : Int) then (w, rng)
    else
      let (d, rng) := drawDelta rng
      let nx := (getEnt w i).position.1 + d.1
      let ny := (getEnt w i).position.2 + d.2
      if is_valid_position w nx ny then
        let res := relocate_unit w i (nx, ny)
        if res.1 then (decrease_food res.2 i, rng) else (res.2, rng)
      else (w, rng)

/-- The scan loop of the injected `eat`: for each target of a prey class draw
`random.random()` against `probability * (hungry_multiplier if hungry)`; the
first successful draw removes the prey, credits its food value and stops. -/
def eat_loop (w : World) (i : Nat) (rule : EatRule) (ts : List Nat) (rng : RNG) :
    World × RNG :=
  match ts with
  | [] => (w, rng)
  | t :: rest =>
    if rule.targetClasses.contains (getEnt w t).species then
      let chance := rule.probability.mul (if (getEnt w i).isHungry then rule.hungryMultiplier else ⟨1, 1⟩)
      let (r, rng) := popFloat rng
      if Frac.lt r chance then
        let v := foodValueOf rule (getEnt w t).species
        let w := delete_unit w t
        (updEnt w i fun e => { e with food := e.food + v }, rng)
      else eat_loop w i rule rest rng
    else eat_loop w i rule rest rng

/-- `eat` (injected by `EvalAnimalMeta._inject_eat_method`). -/
def eat (w : World) (i : Nat) (ph : Phase) (rng : RNG) : World × RNG :=
  if ¬(getEnt w i).isActive then (w, rng)
  else
    let rule := eatRuleFor (getEnt w i).species ph
    eat_loop w i rule (get_nearby_objects w (getEnt w i).position rule.radius) rng

/-- `aggressive_eat` (installed by `Pauvre.make_aggressive_eat`): radius-2
scan for `Lumiere` or `Pauvre` targets other than `self`, each with an
unconditional 0.2 draw; flat +20 food, ignoring the phase table. -/
def aggressive_eat_loop (w : World) (i : Nat) (ts : List Nat) (rng : RNG) : World × RNG :=
  match ts with
  | [] => (w, rng)
  | t :: rest =>
    if ((getEnt w t).species = .lumiere ∨ (getEnt w t).species = .pauvre) ∧ t ≠ i then
      let (r, rng) := popFloat rng
      if Frac.lt r ⟨1, 5⟩ then
        let w := delete_unit w t
        (updEnt w i fun e => { e with food := e.food + 20 }, rng)
      else aggressive_eat_loop w i rest rng
    else aggressive_eat_loop w i rest rng

def aggressive_eat (w : World) (i : Nat) (rng : RNG) : World × RNG :=
  if ¬(getEnt w i).isActive then (w, rng)
  else aggressive_eat_loop w i (get_nearby_objects w (getEnt w i).position 2) rng

/-- The `eat` attribute of animal `i`: the injected method unless
`make_aggressive_eat` has rebound it on this `Pauvre` instance. -/
def eat_dispatch (w : World) (i : Nat) (ph : Phase) (rng : RNG) : World × RNG :=
  if (getEnt w i).species = .pauvre ∧ (getEnt w i).isAggressive then
    aggressive_eat w i rng
  else eat w i ph rng

/-- `reproduce` (injected): spawn a same-class child on a uniformly chosen
free Moore neighbour, if any. -/
def reproduce (w : World) (i : Nat) (rng : RNG) : World × RNG :=
  let cells := get_free_adjacent_cells w (getEnt w i).position
  if cells = [] then (w, rng)
  else
    let (k, rng) := popChoice rng
    let res := createEntity w (getEnt w i).species (cells.getD k (0, 0))
    (add_entity res.1 res.2, rng)

/-- `Animal.try_reproduce`. -/
def try_reproduce (w : World) (i : Nat) (rng : RNG) : World × RNG :=
  let (r, rng) := popFloat rng
  if Frac.lt r (reproduction_probability w i) then reproduce w i rng else (w, rng)

/-! ## Plant behavior (`plants.py`, injected methods from `meta.py`) -/

/-- `can_grow` (injected): `current_time in self.growth_time`. -/
def can_grow (sp : Species) (ph : Phase) : Bool := (growthTime sp).contains ph

/-- `spread` (injected by `EvalPlantMeta._inject_spread_method`).  Note that
`can_replace` is called on the chosen *position*. -/
def try_spread (w : World) (i : Nat) (rng : RNG) : Bool × World × RNG :=
  let target := get_free_adjacent_cells w (getEnt w i).position
  if target = [] then (false, w, rng)
  else
    let (k, rng) := popChoice rng
    let newPos := target.getD k (0, 0)
    let sp := (getEnt w i).species
    let chance :=
      if can_replace sp (some (.pos newPos)) then aggressive_spread_chance sp
      else default_spread_chance sp
    let (r, rng) := popFloat rng
    if Frac.lt r chance then
      let res := createEntity w sp newPos
      (true, add_entity res.1 res.2, rng)
    else (false, w, rng)

/-- `aggressive_spread` (installed by `Plant.make_aggressive_spread`):

    target = world.get_free_adjacent_cells(self.position)
    if target:
        new_pos = random.choice(target)
        if self._can_replace(new_pos): ... 0.75 ...
        elif target is None: ... 0.9 ...
    return False

`_can_replace` receives the chosen position and `target` is a list, so both
guarded branches are kept verbatim around their (never satisfied) guards. -/
def aggressive_spread (w : World) (i : Nat) (rng : RNG) : Bool × World × RNG :=
  let target := get_free_adjacent_cells w (getEnt w i).position
  if target ≠ [] then
    let (k, rng) := popChoice rng
    let newPos := target.getD k (0, 0)
    let sp := (getEnt w i).species
    if can_replace sp (some (.pos newPos)) then
      let (r, rng) := popFloat rng
      if Frac.lt r ⟨3, 4⟩ then
        let res := createEntity w sp newPos
        (true, add_entity res.1 res.2, rng)
      else (false, w, rng)
    else if pyIsNone target then
      let (r, rng) := popFloat rng
      if Frac.lt r ⟨9, 10⟩ then
        let res := createEntity w sp newPos
        (true, add_entity res.1 res.2, rng)
      else (false, w, rng)
    else (false, w, rng)
  else (false, w, rng)

/-- The `try_spread` attribute of plant `i` (rebound by
`make_aggressive_spread` once `_is_aggressive` is set). -/
def spread_dispatch (w : World) (i : Nat) (rng : RNG) : Bool × World × RNG :=
  if (getEnt w i).isAggressive then aggressive_spread w i rng else try_spread w i rng

/-- `Plant.check_self_modification`. -/
def plant_check (w : World) (i : Nat) : World :=
  if (getEnt w i).failedGrowthTicks ≥ 3 ∧ ¬(getEnt w i).isAggressive then
    updEnt w i fun e => { e with isAggressive := true }
  else w

/-- `Plant.grow`. -/
def grow (w : World) (i : Nat) (ph : Phase) (rng : RNG) : World × RNG :=
  if can_grow (getEnt w i).species ph then
    let w := updEnt w i fun e => { e with failedGrowthTicks := 0 }
    let res := spread_dispatch w i rng
    (res.2.1, res.2.2)
  else (updEnt w i fun e => { e with failedGrowthTicks := e.failedGrowthTicks + 1 }, rng)

/-! ## Per-tick update and the scheduler (`update_state`, `World.process_tick`) -/

/-- `Animal.update_state`. -/
def update_state_animal (w : World) (i : Nat) (ph : Phase) (rng : RNG) : World × RNG :=
  let w := change_active_status w i ph
  let w := change_hungry_status w i
  let w := change_speed_status w i
  let w := check_self_modification w i
  if (getEnt w i).isActive then
    let s := merge_dispatch w i rng
    let s := move s.1 i s.2
    let s := eat_dispatch s.1 i ph s.2
    try_reproduce s.1 i s.2
  else (w, rng)

/-- `Plant.update_state`. -/
def update_state_plant (w : World) (i : Nat) (ph : Phase) (rng : RNG) : World × RNG :=
  grow (plant_check w i) i ph rng

def update_state (w : World) (i : Nat) (ph : Phase) (rng : RNG) : World × RNG :=
  if (getEnt w i).species.isAnimal then update_state_animal w i ph rng
  else update_state_plant w i ph rng

/-- `World.process_tick`: snapshot (`list(self.entities)`), update each
snapshot entity against the evolving world, then advance the clock once. -/
def process_tick (w : World) (rng : RNG) : World × RNG :=
  let current := get_time w.time
  let s := w.entities.foldl (fun (s : World × RNG) i => update_state s.1 i current s.2) (w, rng)
  ({ s.1 with time := change_time s.1.time }, s.2)

/-- One iteration of `World.initial_spawn`'s inner loop: draw
`randint(0, height-1)`, `randint(0, width-1)` pairs until a free cell turns
up. -/
def find_free_cell (w : World) : List Int → Option ((Int × Int) × List Int)
  | x :: y :: rest =>
      if matrixGet w.matrix (x, y) = none then some ((x, y), rest)
      else find_free_cell w rest
  | _ => none

/-- Spawning one individual in `World.initial_spawn` (construct the entity at
the found free cell, bind its cell, append it); if the oracle never produces
a free cell the source spins forever, the model leaves the world unchanged. -/
def initial_spawn_one (w : World) (sp : Species) (rng : RNG) : World × RNG :=
  match find_free_cell w rng.ints with
  | some (pos, rest) =>
      let res := createEntity w sp pos
      (add_entity res.1 res.2, { rng with ints := rest })
  | none => (w, rng)

/-- States reachable through the program's world-building operations: a fresh
`World(width, height, ...)`, any sequence of `initial_spawn` individuals
(`initialize_ecosystem` is such a sequence), and `process_tick` runs. -/
inductive Reachable : World → Prop
  | init (width height : Nat) : Reachable (emptyWorld width height)
  | spawn {w : World} (sp : Species) (rng : RNG) (h : Reachable w) :
      Reachable (initial_spawn_one w sp rng).1
  | tick {w : World} (rng : RNG) (h : Reachable w) :
      Reachable (process_tick w rng).1

/-- The spec's occupancy invariant: every live entity's cell holds exactly
that entity, and no two live entities share a position. -/
def occupancyConsistent (w : World) : Bool :=
  w.entities.all (fun i => matrixGet w.matrix (getEnt w i).position == some i) &&
  w.entities.all (fun i => w.entities.all (fun j =>
    i == j || !((getEnt w i).position == (getEnt w j).position)))


/-! ## Helper lemmas on the list-backed grid and store -/

def MWF (m : List (List (Option Nat))) (hgt wid : Nat) : Prop :=
  m.length = hgt ∧ ∀ r ∈ m, r.length = wid

def matrixWF (w : World) : Prop := MWF w.matrix w.height w.width

theorem list_getD_set_self {α : Type} (l : List α) (n : Nat) (v d : α)
    (h : n < l.length) : (l.set n v).getD n d = v := by
  induction l generalizing n with
  | nil => simp at h
  | cons a t ih =>
    cases n with
    | zero => simp
    | succ k =>
        simp only [List.set_cons_succ, List.getD_cons_succ]
        exact ih k (by simpa using h)

theorem list_getD_set_ne {α : Type} (l : List α) (m n : Nat) (v d : α)
    (h : m ≠ n) : (l.set m v).getD n d = l.getD n d := by
  induction l generalizing m n with
  | nil => rfl
  | cons a t ih =>
    cases m with
    | zero =>
        cases n with
        | zero => exact absurd rfl h
        | succ k => simp
    | succ m' =>
        cases n with
        | zero => simp
        | succ k =>
            simp only [List.set_cons_succ, List.getD_cons_succ]
            exact ih m' k (by omega)

theorem list_getD_mem {α : Type} (l : List α) (n : Nat) (d : α)
    (h : n < l.length) : l.getD n d ∈ l := by
  induction l generalizing n with
  | nil => simp at h
  | cons a t ih =>
    cases n with
    | zero => simp
    | succ k =>
        simp only [List.getD_cons_succ]
        exact List.mem_cons_of_mem _ (ih k (by simpa using h))

theorem matrixGet_set_self (m : List (List (Option Nat))) (p : Int × Int)
    (v : Option Nat) (hx : 0 ≤ p.1) (hy : 0 ≤ p.2)
    (hrow : p.1.toNat < m.length) (hcol : p.2.toNat < (m.getD p.1.toNat []).length) :
    matrixGet (matrixSet m p v) p = v := by
  have hpq : 0 ≤ p.1 ∧ 0 ≤ p.2 := ⟨hx, hy⟩
  simp only [matrixGet, matrixSet, if_pos hpq]
  rw [list_getD_set_self _ _ _ _ hrow]
  exact list_getD_set_self _ _ _ _ hcol

theorem matrixGet_set_ne (m : List (List (Option Nat))) (p q : Int × Int)
    (v : Option Nat) (hpx : 0 ≤ p.1) (hpy : 0 ≤ p.2) (hqx : 0 ≤ q.1) (hqy : 0 ≤ q.2)
    (hne : p ≠ q) : matrixGet (matrixSet m p v) q = matrixGet m q := by
  have hpq : 0 ≤ p.1 ∧ 0 ≤ p.2 := ⟨hpx, hpy⟩
  have hq : 0 ≤ q.1 ∧ 0 ≤ q.2 := ⟨hqx, hqy⟩
  simp only [matrixGet, matrixSet, if_pos hpq, if_pos hq]
  by_cases hrow : p.1.toNat = q.1.toNat
  · have hxy : p.1 = q.1 := by omega
    have hcol : p.2.toNat ≠ q.2.toNat := by
      intro hc
      exact hne (Prod.ext hxy (by omega))
    by_cases hlen : p.1.toNat < m.length
    · rw [hrow] at hlen ⊢
      rw [list_getD_set_self _ _ _ _ hlen, ← hrow, list_getD_set_ne _ _ _ _ _ hcol, hrow]
    · rw [List.set_eq_of_length_le (by omega)]
  · rw [list_getD_set_ne _ _ _ _ _ hrow]

theorem alistGet_upd_self {κ β : Type} [DecidableEq κ] (s : List (κ × β)) (i : κ)
    (f : β → β) : alistGet (alistUpd s i f) i = (alistGet s i).map f := by
  induction s with
  | nil => rfl
  | cons a t ih =>
    obtain ⟨k, v⟩ := a
    by_cases h : k = i
    · simp [alistGet, alistUpd, h]
    · simp [alistGet, alistUpd, h, ih]

theorem alistGet_upd_ne {κ β : Type} [DecidableEq κ] (s : List (κ × β)) (i j : κ)
    (f : β → β) (h : j ≠ i) : alistGet (alistUpd s i f) j = alistGet s j := by
  induction s with
  | nil => rfl
  | cons a t ih =>
    obtain ⟨k, v⟩ := a
    simp only [alistUpd]
    by_cases hk : k = i
    · rw [if_pos hk]
      simp only [alistGet]
      have hkj : ¬k = j := fun hc => h (by rw [← hc, hk])
      rw [if_neg hkj, if_neg hkj]
      exact ih
    · rw [if_neg hk]
      simp only [alistGet]
      by_cases hj : k = j
      · rw [if_pos hj, if_pos hj]
      · rw [if_neg hj, if_neg hj]
        exact ih

theorem getEnt_updEnt_self (w : World) (i : Nat) (f : Entity → Entity)
    (e : Entity) (he : alistGet w.store i = some e) :
    getEnt (updEnt w i f) i = f e := by
  simp [getEnt, updEnt, alistGet_upd_self, he]

theorem getEnt_updEnt_ne (w : World) (i j : Nat) (f : Entity → Entity)
    (h : j ≠ i) : getEnt (updEnt w i f) j = getEnt w j := by
  simp [getEnt, updEnt, alistGet_upd_ne _ _ _ _ h]

theorem MWF_set (m : List (List (Option Nat))) (hgt wid : Nat) (p : Int × Int)
    (v : Option Nat) (h : MWF m hgt wid) : MWF (matrixSet m p v) hgt wid := by
  unfold matrixSet
  split
  · refine ⟨by simpa using h.1, ?_⟩
    intro r hr
    by_cases hl : p.1.toNat < m.length
    · rcases List.mem_or_eq_of_mem_set hr with hm | he
      · exact h.2 r hm
      · subst he
        rw [List.length_set]
        exact h.2 _ (list_getD_mem _ _ _ hl)
    · rw [List.set_eq_of_length_le (by omega)] at hr
      exact h.2 r hr
  · exact h

theorem matrixGet_set_valid (m : List (List (Option Nat))) (hgt wid : Nat)
    (p : Int × Int) (v : Option Nat) (h : MWF m hgt wid)
    (hx : 0 ≤ p.1) (hx2 : p.1 < (hgt : Int)) (hy : 0 ≤ p.2) (hy2 : p.2 < (wid : Int)) :
    matrixGet (matrixSet m p v) p = v := by
  have h1 := h.1
  have hrow : p.1.toNat < m.length := by omega
  have hr : (m.getD p.1.toNat []).length = wid := h.2 _ (list_getD_mem _ _ _ hrow)
  exact matrixGet_set_self m p v hx hy hrow (by omega)

/-! ## Claim theorems -/

/-- C4: in Mutated (aggressive) mode a plant's spread attempt never spawns
anything, whatever the world and whatever the random draws: the
competitor-replacement branch tests `isinstance` on the chosen *position*
(never an entity, so never satisfied) and the free-cell branch is guarded by
`target is None` inside `if target:` (never satisfied), so the claimed
0.75/0.9 spawn probabilities are unreachable and the world is returned
unchanged with a `False` result. -/
theorem c4_aggressive_spread_never_spawns (w : World) (i : Nat) (rng : RNG) :
    (aggressive_spread w i rng).1 = false ∧ (aggressive_spread w i rng).2.1 = w := by
  unfold aggressive_spread
  by_cases h : get_free_adjacent_cells w (getEnt w i).position = []
  · simp [h]
  · simp [h, can_replace, pyIsNone]

/-- C9: `move_entity` is atomic.  If the target is out of bounds or occupied
it returns `False` and the whole world — the entity's position and both cells
included — is unchanged; on success the entity's recorded position becomes
the target, the target cell holds the entity, and the (distinct) source cell
is vacated. -/
theorem c9_move_entity_atomic (w : World) (i : Nat) (newPos : Int × Int)
    (e : Entity) (he : alistGet w.store i = some e) (hwf : matrixWF w)
    (hold : is_valid_position w e.position.1 e.position.2 = true) :
    (¬(is_valid_position w newPos.1 newPos.2 = true ∧ matrixGet w.matrix newPos = none) →
      move_entity w i newPos = (false, w)) ∧
    ((is_valid_position w newPos.1 newPos.2 = true ∧ matrixGet w.matrix newPos = none) →
      (move_entity w i newPos).1 = true ∧
      getEnt (move_entity w i newPos).2 i = { e with position := newPos } ∧
      matrixGet (move_entity w i newPos).2.matrix newPos = some i ∧
      (e.position ≠ newPos → matrixGet (move_entity w i newPos).2.matrix e.position = none)) := by
  have hge : getEnt w i = e := by simp [getEnt, he]
  constructor
  · intro h
    unfold move_entity
    rw [if_neg (by simpa [hge] using h)]
  · intro h
    have hvx : 0 ≤ newPos.1 ∧ newPos.1 < (w.height : Int) ∧ 0 ≤ newPos.2 ∧
        newPos.2 < (w.width : Int) := by simpa [is_valid_position] using h.1
    have hox : 0 ≤ e.position.1 ∧ e.position.1 < (w.height : Int) ∧ 0 ≤ e.position.2 ∧
        e.position.2 < (w.width : Int) := by simpa [is_valid_position] using hold
    have hstep : move_entity w i newPos =
        (true,
          { updEnt { w with matrix := matrixSet w.matrix e.position none } i
              (fun e => { e with position := newPos }) with
            matrix := matrixSet (matrixSet w.matrix e.position none) newPos (some i) }) := by
      unfold move_entity
      rw [hge, if_pos (by simpa [hge] using h)]
      rfl
    refine ⟨by rw [hstep], ?_, ?_, ?_⟩
    · rw [hstep]
      show getEnt (updEnt { w with matrix := matrixSet w.matrix e.position none } i
        (fun e => { e with position := newPos })) i = _
      exact getEnt_updEnt_self _ _ _ _ (by simpa using he)
    · rw [hstep]
      exact matrixGet_set_valid _ w.height w.width _ _
        (MWF_set _ _ _ _ _ hwf) hvx.1 hvx.2.1 hvx.2.2.1 hvx.2.2.2
    · intro hne
      rw [hstep]
      show matrixGet (matrixSet (matrixSet w.matrix e.position none) newPos (some i))
        e.position = none
      rw [matrixGet_set_ne _ _ _ _ hvx.1 hvx.2.2.1 hox.1 hox.2.2.1 (Ne.symm hne)]
      exact matrixGet_set_valid _ w.height w.width _ _ hwf hox.1 hox.2.1 hox.2.2.1 hox.2.2.2

/-- The 2×2 world used to witness the grid-operation claims: entity 0 at
`(0,0)`, entity 1 at `(0,1)`. -/
def gridW : World :=
  let r1 := createEntity (emptyWorld 2 2) .pauvre (0, 0)
  let r2 := createEntity (add_entity r1.1 r1.2) .pauvre (0, 1)
  add_entity r2.1 r2.2

/-- Witness for `c9_move_entity_atomic`: in `gridW`, moving entity 0 to the
occupied cell `(0,1)` fails changing nothing; moving it to the free `(1,1)`
succeeds with both cells and the recorded position updated. -/
theorem c9_move_entity_atomic_witness :
    move_entity gridW 0 (0, 1) = (false, gridW) ∧
    (move_entity gridW 0 (1, 1)).1 = true ∧
    getEnt (move_entity gridW 0 (1, 1)).2 0 = { getEnt gridW 0 with position := (1, 1) } ∧
    matrixGet (move_entity gridW 0 (1, 1)).2.matrix (1, 1) = some 0 ∧
    matrixGet (move_entity gridW 0 (1, 1)).2.matrix (0, 0) = none := by
  have hwf : matrixWF gridW := ⟨by decide, by decide⟩
  refine ⟨(c9_move_entity_atomic gridW 0 (0, 1) (getEnt gridW 0) (by decide) hwf
      (by decide)).1 (by decide), ?_⟩
  have h2 := (c9_move_entity_atomic gridW 0 (1, 1) (getEnt gridW 0) (by decide) hwf
      (by decide)).2 ⟨by decide, by decide⟩
  exact ⟨h2.1, h2.2.1, h2.2.2.1, h2.2.2.2 (by decide)⟩

/-- A third entity created at the already-occupied cell `(0,0)` of `gridW`. -/
def c3res : World × Nat := createEntity gridW .demi (0, 0)

/-- C3 counterexample: `add_entity` (the grid place operation) at an occupied
in-bounds cell is not a failing no-op — it re-binds the cell to the new
entity and appends it to the entity list (and returns no failure signal: its
result is just the mutated world). -/
theorem c3_place_on_occupied_cell_not_noop :
    matrixGet c3res.1.matrix (0, 0) = some 0 ∧
    (getEnt c3res.1 c3res.2).position = (0, 0) ∧
    c3res.1.entities = [0, 1] ∧
    matrixGet (add_entity c3res.1 c3res.2).matrix (0, 0) = some 2 ∧
    (add_entity c3res.1 c3res.2).entities = [0, 1, 2] := by
  decide

/-- C3 amended: `add_entity` binds the cell at the entity's (in-bounds)
position to the entity and appends it to the entity list unconditionally —
occupancy is never checked (an occupant is overwritten), and no
success/failure signal is produced. -/
theorem c3_place_unconditional (w : World) (i : Nat) (hwf : matrixWF w)
    (hval : is_valid_position w (getEnt w i).position.1 (getEnt w i).position.2 = true) :
    (add_entity w i).entities = w.entities ++ [i] ∧
    matrixGet (add_entity w i).matrix (getEnt w i).position = some i := by
  refine ⟨rfl, ?_⟩
  have hv : 0 ≤ (getEnt w i).position.1 ∧ (getEnt w i).position.1 < (w.height : Int) ∧
      0 ≤ (getEnt w i).position.2 ∧ (getEnt w i).position.2 < (w.width : Int) := by
    simpa [is_valid_position] using hval
  exact matrixGet_set_valid _ w.height w.width _ _ hwf hv.1 hv.2.1 hv.2.2.1 hv.2.2.2

/-- Witness for `c3_place_unconditional`, at the occupied-cell input. -/
theorem c3_place_unconditional_witness :
    (add_entity c3res.1 2).entities = c3res.1.entities ++ [2] ∧
    matrixGet (add_entity c3res.1 2).matrix (getEnt c3res.1 2).position = some 2 := by
  exact c3_place_unconditional c3res.1 2 ⟨by decide, by decide⟩ (by decide)

/-- C8: the self-modification transition is one-way and its check idempotent.
Once `_is_aggressive` / `_is_predatory` is present the corresponding check is
a no-op (for starving `Pauvre`, group-bound `Malheureux`, and plants alike);
the transition fires for a still-Normal starving `Pauvre`; and a Mutated
`Pauvre`'s eat attribute is the unconditional neighbour scan, independent of
the current phase (hence of the phase-based rule table) and in particular
unchanged when it is no longer hungry. -/
theorem c8_self_modification_one_way (w : World) (i : Nat) (ph ph2 : Phase) (rng : RNG) :
    ((getEnt w i).species = .pauvre → (getEnt w i).isAggressive = true →
      check_self_modification w i = w) ∧
    ((getEnt w i).species = .malheureux → (getEnt w i).isPredatory = true →
      check_self_modification w i = w) ∧
    ((getEnt w i).isAggressive = true → plant_check w i = w) ∧
    (∀ e, alistGet w.store i = some e → e.species = .pauvre → e.isHungry = true →
      e.food < 10 → e.isAggressive = false →
      getEnt (check_self_modification w i) i = { e with isAggressive := true }) ∧
    ((getEnt w i).species = .pauvre → (getEnt w i).isAggressive = true →
      eat_dispatch w i ph rng = aggressive_eat w i rng ∧
      eat_dispatch w i ph rng = eat_dispatch w i ph2 rng) := by
  refine ⟨?_, ?_, ?_, ?_, ?_⟩
  · intro hs ha
    simp only [check_self_modification, hs]
    rw [if_neg (by simp [ha])]
  · intro hs ha
    simp only [check_self_modification, hs]
    rw [if_neg (by simp [ha])]
  · intro ha
    unfold plant_check
    rw [if_neg (by simp [ha])]
  · intro e he hs hh hf ha
    have hge : getEnt w i = e := by simp [getEnt, he]
    simp only [check_self_modification, hge, hs]
    rw [if_pos (by simp [hh, hf, ha])]
    rw [getEnt_updEnt_self w i _ e he, hs]
  · intro hs ha
    constructor
    · unfold eat_dispatch
      rw [if_pos (by simp [hs, ha])]
    · unfold eat_dispatch
      rw [if_pos (by simp [hs, ha]), if_pos (by simp [hs, ha])]

/-- The world used to witness C8: `Pauvre` 0 already Mutated, `Pauvre` 1
still Normal but starving (`food = 5`, hungry). -/
def c8w : World :=
  let r1 := createEntity (emptyWorld 2 2) .pauvre (0, 0)
  let r2 := createEntity (add_entity r1.1 r1.2) .pauvre (0, 1)
  let w2 := add_entity r2.1 r2.2
  let w3 := updEnt w2 0 fun e => { e with isAggressive := true }
  updEnt w3 1 fun e => { e with isHungry := true, food := 5 }

/-- Witness for `c8_self_modification_one_way`: on `c8w`, the check is a
no-op for the Mutated entity 0, it flips entity 1 to Mutated, and entity 0's
eat dispatch is the phase-independent aggressive scan. -/
theorem c8_self_modification_one_way_witness :
    check_self_modification c8w 0 = c8w ∧
    getEnt (check_self_modification c8w 1) 1 = { getEnt c8w 1 with isAggressive := true } ∧
    eat_dispatch c8w 0 .morning ⟨[], [], []⟩ = aggressive_eat c8w 0 ⟨[], [], []⟩ ∧
    eat_dispatch c8w 0 .morning ⟨[], [], []⟩ = eat_dispatch c8w 0 .night ⟨[], [], []⟩ := by
  have h0 := c8_self_modification_one_way c8w 0 .morning .night ⟨[], [], []⟩
  have h1 := c8_self_modification_one_way c8w 1 .morning .night ⟨[], [], []⟩
  refine ⟨h0.1 (by decide) (by decide), ?_, (h0.2.2.2.2 (by decide) (by decide)).1,
    (h0.2.2.2.2 (by decide) (by decide)).2⟩
  exact h1.2.2.2.1 (getEnt c8w 1) (by decide) (by decide) (by decide) (by decide) (by decide)

theorem predatory_loop_skip (w : World) (i : Nat) (pre rest : List Nat) :
    (∀ x ∈ pre, ¬((getEnt w x).species = (getEnt w i).species ∧ x ≠ i ∧
      groupSizeOf w x < 3)) →
    predatory_loop w i (pre ++ rest) = predatory_loop w i rest := by
  induction pre with
  | nil => intro _; rfl
  | cons c cs ih =>
    intro hpre
    have hc := hpre c (List.mem_cons_self c cs)
    rw [List.cons_append]
    simp only [predatory_loop]
    by_cases h1 : (getEnt w c).species = (getEnt w i).species ∧ c ≠ i
    · rw [if_pos h1, if_neg (fun h2 => hc ⟨h1.1, h1.2, h2⟩)]
      exact ih fun x hx => hpre x (List.mem_cons_of_mem _ hx)
    · rw [if_neg h1]
      exact ih fun x hx => hpre x (List.mem_cons_of_mem _ hx)

/-- C7: the Mutated merge mode of `Malheureux`.  Entering the mode is gated
exactly on group size exceeding 5; in the mode the merge attempt consumes no
randomness at all (`merge_dispatch` hands the oracle back untouched); any
scan prefix of ineligible neighbours — other species, `self`, or a group of
3 or more members — is skipped without effect, so a candidate list with no
small-group neighbour leaves the world unchanged regardless of draws; and
the first same-species neighbour whose group has fewer than 3 members is
absorbed outright by `mergeGroups`, ignoring the rest of the scan. -/
theorem c7_predatory_merge_unconditional (w : World) (i t : Nat) (rng : RNG)
    (pre rest : List Nat) :
    ((getEnt w i).species = .malheureux → (getEnt w i).isPredatory = false →
      groupSizeOf w i > 5 →
      ∀ e, alistGet w.store i = some e →
      getEnt (check_self_modification w i) i = { e with isPredatory := true }) ∧
    ((getEnt w i).species = .malheureux → groupSizeOf w i ≤ 5 →
      check_self_modification w i = w) ∧
    ((getEnt w i).species = .malheureux → (getEnt w i).isPredatory = true →
      merge_dispatch w i rng = (predatory_merge w i, rng)) ∧
    ((∀ x ∈ pre, ¬((getEnt w x).species = (getEnt w i).species ∧ x ≠ i ∧
        groupSizeOf w x < 3)) →
      predatory_loop w i (pre ++ rest) = predatory_loop w i rest ∧
      predatory_loop w i pre = w) ∧
    ((getEnt w t).species = (getEnt w i).species → t ≠ i → groupSizeOf w t < 3 →
      predatory_loop w i (t :: rest) = mergeGroups w i t) := by
  refine ⟨?_, ?_, ?_, ?_, ?_⟩
  · intro hs hp hsz e he
    have hge : getEnt w i = e := by simp [getEnt, he]
    simp only [check_self_modification, hs]
    rw [if_pos ⟨hsz, by simp [hp]⟩]
    rw [getEnt_updEnt_self w i _ e he]
  · intro hs hsz
    simp only [check_self_modification, hs]
    rw [if_neg (by omega)]
  · intro hs hp
    unfold merge_dispatch
    rw [if_pos ⟨hs, hp⟩]
  · intro hpre
    refine ⟨predatory_loop_skip w i pre rest hpre, ?_⟩
    have h0 := predatory_loop_skip w i pre [] hpre
    simpa using h0
  · intro hsp hne hsz
    simp only [predatory_loop]
    rw [if_pos ⟨hsp, hne⟩, if_pos hsz]

/-- The world used to witness C7: `Malheureux` 0 at `(0,0)` is already in
Mutated merge mode with a group of 6; `Malheureux` 1 at `(0,1)` has a group
of 2, `Malheureux` 2 at `(0,2)` a group of 3.  Ids 3–10 are the off-screen
fellow group members. -/
def c7w : World :=
  { width := 4, height := 4
    matrix := [[some 0, some 1, some 2, none], [none, none, none, none],
               [none, none, none, none], [none, none, none, none]]
    entities := [0, 1, 2]
    store := [(0, { species := .malheureux, position := (0, 0), speed := 100, food := 100
                    isActive := true, isHungry := false, groupId := 0, isPredatory := true
                    isAggressive := false, failedGrowthTicks := 0 }),
              (1, { species := .malheureux, position := (0, 1), speed := 100, food := 100
                    isActive := true, isHungry := false, groupId := 1, isPredatory := false
                    isAggressive := false, failedGrowthTicks := 0 }),
              (2, { species := .malheureux, position := (0, 2), speed := 100, food := 100
                    isActive := true, isHungry := false, groupId := 2, isPredatory := false
                    isAggressive := false, failedGrowthTicks := 0 })]
    groups := [(0, [0, 3, 4, 5, 6, 7]), (1, [1, 8]), (2, [2, 9, 10])]
    nextId := 11, nextGroupId := 3, time := ⟨0⟩ }

/-- `c7w` with entity 0 not yet in Mutated merge mode. -/
def c7pre : World := updEnt c7w 0 fun e => { e with isPredatory := false }

/-- Witness for `c7_predatory_merge_unconditional`: entity 0's check flips it
to Mutated (group of 6); entity 1's check is inert (group of 2); the Mutated
merge hands the random oracle back untouched; the size-3 neighbour 2 is
skipped with no effect; the size-2 neighbour 1 is absorbed outright. -/
theorem c7_predatory_merge_unconditional_witness :
    getEnt (check_self_modification c7pre 0) 0 = { getEnt c7pre 0 with isPredatory := true } ∧
    check_self_modification c7w 1 = c7w ∧
    merge_dispatch c7w 0 ⟨[⟨1, 2⟩], [3], [4]⟩ = (predatory_merge c7w 0, ⟨[⟨1, 2⟩], [3], [4]⟩) ∧
    predatory_loop c7w 0 [2] = c7w ∧
    predatory_loop c7w 0 [1] = mergeGroups c7w 0 1 := by
  have h0 := c7_predatory_merge_unconditional c7pre 0 1 ⟨[⟨1, 2⟩], [3], [4]⟩ [2] []
  have h1 := c7_predatory_merge_unconditional c7w 1 1 ⟨[⟨1, 2⟩], [3], [4]⟩ [2] []
  have h2 := c7_predatory_merge_unconditional c7w 0 1 ⟨[⟨1, 2⟩], [3], [4]⟩ [2] []
  refine ⟨h0.1 (by decide) (by decide) (by decide) (getEnt c7pre 0) (by decide),
    h1.2.1 (by decide) (by decide),
    h2.2.2.1 (by decide) (by decide), (h2.2.2.2.1 (by decide)).2,
    h2.2.2.2.2 (by decide) (by decide) (by decide)⟩

theorem eat_loop_skip (w : World) (i : Nat) (rule : EatRule) (pre rest : List Nat)
    (rng : RNG) :
    (∀ x ∈ pre, rule.targetClasses.contains (getEnt w x).species = false) →
    eat_loop w i rule (pre ++ rest) rng = eat_loop w i rule rest rng := by
  induction pre with
  | nil => intro _; rfl
  | cons c cs ih =>
    intro hpre
    rw [List.cons_append]
    simp only [eat_loop]
    rw [if_neg (by simp [hpre c (List.mem_cons_self c cs)])]
    exact ih fun x hx => hpre x (List.mem_cons_of_mem _ hx)

/-- C5: the Normal-mode eat step.  The rule lookup falls back to the
`"default"` entry whenever the phase key is absent from the class table; an
active animal scans the neighbours within the looked-up rule's radius;
non-prey neighbours are passed over without a draw; the first prey neighbour
draws at `probability × (hungry_multiplier if hungry else 1)` and, when the
draw succeeds, that prey is removed from the grid and the entity list, its
configured food value is credited to the eater, and the remaining neighbours
are never examined. -/
theorem c5_eat_first_prey (w : World) (i : Nat) (ph : Phase) (rule : EatRule)
    (pre rest : List Nat) (t : Nat) (rng : RNG) :
    (∀ sp ph2, eatBehavior sp ph2 = none → eatRuleFor sp ph2 = eatDefault sp) ∧
    ((getEnt w i).isActive = true →
      eat w i ph rng =
        eat_loop w i (eatRuleFor (getEnt w i).species ph)
          (get_nearby_objects w (getEnt w i).position
            (eatRuleFor (getEnt w i).species ph).radius) rng) ∧
    ((∀ x ∈ pre, rule.targetClasses.contains (getEnt w x).species = false) →
      eat_loop w i rule (pre ++ t :: rest) rng = eat_loop w i rule (t :: rest) rng) ∧
    (rule.targetClasses.contains (getEnt w t).species = true →
      Frac.lt (rng.floats.headD ⟨0, 1⟩)
        (rule.probability.mul (if (getEnt w i).isHungry then rule.hungryMultiplier else ⟨1, 1⟩)) = true →
      eat_loop w i rule (t :: rest) rng =
        (updEnt (delete_unit w t) i
            (fun e => { e with food := e.food + foodValueOf rule (getEnt w t).species }),
         { rng with floats := rng.floats.tail })) ∧
    (t ∈ w.entities → matrixWF w →
      is_valid_position w (getEnt w t).position.1 (getEnt w t).position.2 = true →
      (delete_unit w t).entities = w.entities.erase t ∧
      matrixGet (delete_unit w t).matrix (getEnt w t).position = none) := by
  refine ⟨?_, ?_, ?_, ?_, ?_⟩
  · intro sp ph2 h
    unfold eatRuleFor
    rw [h]
  · intro hact
    unfold eat
    rw [if_neg (by simp [hact])]
  · intro hpre
    exact eat_loop_skip w i rule pre (t :: rest) rng hpre
  · intro ht hdraw
    simp only [eat_loop, popFloat]
    rw [if_pos ht, if_pos hdraw]
  · intro hlive hwf hval
    have hv : 0 ≤ (getEnt w t).position.1 ∧ (getEnt w t).position.1 < (w.height : Int) ∧
        0 ≤ (getEnt w t).position.2 ∧ (getEnt w t).position.2 < (w.width : Int) := by
      simpa [is_valid_position] using hval
    unfold delete_unit
    rw [if_pos hlive]
    exact ⟨rfl, matrixGet_set_valid _ w.height w.width _ _ hwf hv.1 hv.2.1 hv.2.2.1 hv.2.2.2⟩

/-- The world used to witness C5: hungry Normal `Pauvre` 0 at `(0,0)`
(`food = 20`), non-prey `Malheureux` 1 at `(0,1)`, prey `Lumiere` 2 at
`(0,2)`. -/
def c5w : World :=
  let r1 := createEntity (emptyWorld 4 4) .pauvre (0, 0)
  let r2 := createEntity (add_entity r1.1 r1.2) .malheureux (0, 1)
  let r3 := createEntity (add_entity r2.1 r2.2) .lumiere (0, 2)
  updEnt (add_entity r3.1 r3.2) 0 fun e => { e with isHungry := true, food := 20 }

/-- Witness for `c5_eat_first_prey`: the phase `night` is absent from the
`Pauvre` table so the default rule is used; on `c5w` the non-prey neighbour
is passed over, and the draw `0.5 < 0.33 × 2` removes the `Lumiere` and
credits its food value, with no further neighbour examined. -/
theorem c5_eat_first_prey_witness :
    eatRuleFor .pauvre .night = eatDefault .pauvre ∧
    eat c5w 0 .morning ⟨[⟨1, 2⟩], [], []⟩ =
      eat_loop c5w 0 (eatRuleFor (getEnt c5w 0).species .morning)
        (get_nearby_objects c5w (getEnt c5w 0).position
          (eatRuleFor (getEnt c5w 0).species .morning).radius) ⟨[⟨1, 2⟩], [], []⟩ ∧
    eat_loop c5w 0 (eatRuleFor .pauvre .morning) ([1] ++ 2 :: []) ⟨[⟨1, 2⟩], [], []⟩ =
      eat_loop c5w 0 (eatRuleFor .pauvre .morning) (2 :: []) ⟨[⟨1, 2⟩], [], []⟩ ∧
    eat_loop c5w 0 (eatRuleFor .pauvre .morning) (2 :: []) ⟨[⟨1, 2⟩], [], []⟩ =
      (updEnt (delete_unit c5w 2) 0
          (fun e => { e with food := e.food + foodValueOf (eatRuleFor .pauvre .morning) (getEnt c5w 2).species }),
       ⟨[], [], []⟩) ∧
    (delete_unit c5w 2).entities = c5w.entities.erase 2 ∧
    matrixGet (delete_unit c5w 2).matrix (getEnt c5w 2).position = none := by
  have h := c5_eat_first_prey c5w 0 .morning (eatRuleFor .pauvre .morning) [1] [] 2
    ⟨[⟨1, 2⟩], [], []⟩
  have h5 := h.2.2.2.2 (by decide) ⟨by decide, by decide⟩ (by decide)
  exact ⟨h.1 .pauvre .night rfl, h.2.1 (by decide), h.2.2.1 (by decide),
    h.2.2.2.1 (by decide) (by decide), h5.1, h5.2⟩

/-- Two-entity world for C1: `Malheureux` 0 at `(0,0)`, `Pauvre` 1 at
`(0,1)`, built through `initial_spawn`, phase `morning`. -/
def c1w : World :=
  (initial_spawn_one (initial_spawn_one (emptyWorld 4 4) .malheureux ⟨[], [0, 0], []⟩).1
    .pauvre ⟨[], [0, 1], []⟩).1

/-- The tick's draws: 0 fails its move (delta `(-1,-1)` is out of bounds),
eats 1 on the `0.1 < 0.25` draw, skips reproduction; then 1 — already
removed — passes its move gate and walks to `(1,2)`. -/
def c1rng : RNG := ⟨[⟨1, 10⟩, ⟨9, 10⟩, ⟨9, 10⟩], [50, -1, -1, 50, 1, 1], []⟩

def c1out : World := (process_tick c1w c1rng).1

/-- C1: the snapshot loop of `process_tick` does not skip entities removed
earlier in the same tick.  After entity 0 eats entity 1, entity 1's update
still runs: its speed is recomputed (50 → 100), it loses move food
(100 → 99), and it moves to `(1,2)` — re-binding a grid cell to an entity
that is no longer in the entity list — while the phase advances exactly
once. -/
theorem c1_removed_entity_still_updated :
    (getEnt c1w 1).speed = 50 ∧ (getEnt c1w 1).position = (0, 1) ∧
    c1out.entities = [0] ∧
    (getEnt c1out 1).speed = 100 ∧ (getEnt c1out 1).position = (1, 2) ∧
    (getEnt c1out 1).food = 99 ∧
    matrixGet c1out.matrix (1, 2) = some 1 ∧
    c1out.time.tickCounter = c1w.time.tickCounter + 1 := by decide

/-- Two adjacent singleton-group `Pauvre` for C2, built through
`initial_spawn`. -/
def c2w : World :=
  (initial_spawn_one (initial_spawn_one (emptyWorld 3 3) .pauvre ⟨[], [0, 0], []⟩).1
    .pauvre ⟨[], [0, 1], []⟩).1

def c2out : World := (try_merge_groups c2w 0 ⟨[⟨1, 10⟩], [], []⟩).1

/-- C2: a successful merge is destructive.  With the `0.1 < 0.25` draw,
entity 0 absorbs entity 1's singleton group: 1 is indeed re-pointed to the
surviving group object and the member lists are unioned, but
`remove_group(entity.group)` — whose argument has just been re-pointed to
the merged list — then deletes **every** member, the absorbing animal
included, from the entity list and the grid. -/
theorem c2_successful_merge_destroys_members :
    c2w.entities = [0, 1] ∧ (getEnt c2w 1).groupId = 1 ∧
    (getEnt c2out 1).groupId = 0 ∧ getGroup c2out 0 = [0, 1] ∧
    c2out.entities = [] ∧
    matrixGet c2out.matrix (0, 0) = none ∧ matrixGet c2out.matrix (0, 1) = none := by
  decide

def c6e : Entity :=
  { species := .pauvre, position := (0, 0), speed := 50, food := 100
    isActive := true, isHungry := false, groupId := 0, isPredatory := false
    isAggressive := false, failedGrowthTicks := 0 }

/-- Two adjacent `Pauvre` that already share one group (object 0 with member
list `[0, 1]`), for C6. -/
def c6w : World :=
  { width := 3, height := 3
    matrix := [[some 0, some 1, none], [none, none, none], [none, none, none]]
    entities := [0, 1]
    store := [(0, c6e), (1, { c6e with position := ((0 : Int), (1 : Int)) })]
    groups := [(0, [0, 1])], nextId := 2, nextGroupId := 1, time := ⟨0⟩ }

def c6out : World := (try_merge_groups c6w 0 ⟨[⟨1, 10⟩], [], []⟩).1

/-- C6: `try_merge_groups` never compares groups.  Entity 1 — the first and
only same-species neighbour — is in entity 0's own group, yet on the
`0.1 < 0.25` draw the merge runs anyway: the group is extended with a copy
of itself (member list doubled) and the subsequent `remove_group` deletes
both animals, the acting one included, from the entity list and grid,
whereas under the claim a same-group neighbour is no merge candidate and
nothing would change. -/
theorem c6_same_group_neighbor_merged :
    (getEnt c6w 0).groupId = (getEnt c6w 1).groupId ∧
    get_nearby_objects c6w (getEnt c6w 0).position 2 = [1] ∧
    c6w.entities = [0, 1] ∧ getGroup c6w 0 = [0, 1] ∧
    getGroup c6out 0 = [0, 1, 0, 1] ∧
    c6out.entities = [] := by
  decide

/-- Three-entity world for C10, built through `initial_spawn`:
`Malheureux` 0 at `(0,0)`, `Pauvre` 1 at `(0,2)`, `Pauvre` 2 at `(0,1)`. -/
def c10w : World :=
  (initial_spawn_one (initial_spawn_one (initial_spawn_one (emptyWorld 4 4)
    .malheureux ⟨[], [0, 0], []⟩).1 .pauvre ⟨[], [0, 2], []⟩).1
    .pauvre ⟨[], [0, 1], []⟩).1

/-- The tick's draws: 0 fails its move and eats 2; live 1 moves into 2's
vacated cell `(0,1)`; dead 2 — still updated — moves from its recorded
position `(0,1)` to `(1,2)`, clearing the cell now occupied by 1. -/
def c10rng : RNG :=
  ⟨[⟨1, 10⟩, ⟨9, 10⟩, ⟨9, 10⟩, ⟨9, 10⟩], [50, -1, -1, 50, 0, -1, 50, 1, 1], []⟩

def c10out : World := (process_tick c10w c10rng).1

/-- C10: a state reachable by spawning and one `process_tick` violates the
occupancy invariant: entity 1 is live with recorded position `(0,1)`, but
that grid cell is empty — the update of the already-eaten entity 2 vacated
it when the dead entity moved away. -/
theorem c10_reachable_state_violates_occupancy :
    Reachable c10out ∧
    1 ∈ c10out.entities ∧
    matrixGet c10out.matrix (getEnt c10out 1).position = none ∧
    occupancyConsistent c10out = false := by
  refine ⟨?_, by decide, by decide, by decide⟩
  exact Reachable.tick c10rng (Reachable.spawn .pauvre ⟨[], [0, 1], []⟩
    (Reachable.spawn .pauvre ⟨[], [0, 2], []⟩
      (Reachable.spawn .malheureux ⟨[], [0, 0], []⟩ (Reachable.init 4 4))))
